import Mathlib

/-!
Verification model of the bonsai-python client runtime.

The definitions below are a shallow embedding of the Python sources:

* bonsai/inkling_types.py        (Luminance)
* bonsai/common/message_builder.py (dynamic schema binder)
* bonsai/common/state_to_proto.py  (state projector)
* bonsai/simulator.py and bonsai/connections.py (simulator adapter)
* python/bonsai/drivers.py         (training session driver)
* bonsai/websocket_event_loop.py, python/bonsai/tornado_event_loop.py,
  bonsai/asyncio_event_loop.py, python/bonsai/asyncio_event_loop.py
  (transport loops and recorder)

Machine-level aspects that the verified claims do not depend on are
abstracted and documented at each definition: IEEE-754 float packing is
replaced by an opaque 4-byte encoding, Python's built-in hash of a tuple is
replaced by the tuple itself, and protobuf byte serialization of dynamic
payloads is replaced by the field-name/value map it encodes.
-/

set_option autoImplicit false

namespace Bonsai

/-! Model of bonsai/inkling_types.py -/

/-- Exceptions raised by the Luminance constructor: ValueError or TypeError. -/
inductive PyError where
  | valueError
  | typeError
deriving DecidableEq, Repr

/-- Argument passed as the pixels parameter of Luminance.__init__: a bytes
object, a non-bytes iterable of numeric pixel values, or a value that is not
iterable at all. -/
inductive PixelsArg where
  | bytes (b : List UInt8)
  | iter (xs : List Int)
  | nonIterable
deriving DecidableEq, Repr

/-- Luminance image object as stored after construction: width, height and
the packed pixel bytes. -/
structure Luminance where
  width : Nat
  height : Nat
  pixels : List UInt8
deriving DecidableEq, Repr

/-- Packing of one numeric pixel value into 4 bytes, modelling struct.pack of
a single float32. The IEEE-754 encoding is abstracted into a little-endian
encoding of the integer value; the code under study depends only on each
element contributing exactly 4 bytes. -/
def pack4 (x : Int) : List UInt8 :=
  let u := (x % 4294967296).toNat
  [UInt8.ofNat (u % 256), UInt8.ofNat (u / 256 % 256),
   UInt8.ofNat (u / 65536 % 256), UInt8.ofNat (u / 16777216 % 256)]

/-- Model of Luminance.__init__ from bonsai/inkling_types.py. A bytes value
must have length width * height * 4 and is stored as is; any other iterable
must have length width * height and every element is packed as a 4-byte
float; a non-iterable value fails the len call with TypeError, which the
constructor re-raises as its own TypeError. -/
def Luminance.init (width height : Nat) (pixels : PixelsArg) :
    Except PyError Luminance :=
  match pixels with
  | .bytes b =>
      if b.length = width * height * 4 then
        .ok { width := width, height := height, pixels := b }
      else
        .error .valueError
  | .iter xs =>
      if xs.length = width * height then
        .ok { width := width, height := height, pixels := xs.flatMap pack4 }
      else
        .error .valueError
  | .nonIterable => .error .typeError

/-! Model of bonsai/common/message_builder.py -/

/-- Wire types of protobuf field descriptors that the repository handles. -/
inductive FieldType where
  | TYPE_DOUBLE
  | TYPE_FLOAT
  | TYPE_INT32
  | TYPE_INT64
  | TYPE_SINT32
  | TYPE_SINT64
  | TYPE_UINT32
  | TYPE_UINT64
  | TYPE_BOOL
  | TYPE_STRING
  | TYPE_BYTES
  | TYPE_MESSAGE
deriving DecidableEq, Repr

/-- Model of a protobuf FieldDescriptorProto restricted to the attributes the
repository reads: name, number, label, type and referenced type name. -/
structure FieldDescriptorProto where
  name : String
  number : Nat
  label : Nat
  type : FieldType
  type_name : String
deriving DecidableEq, Repr

/-- Model of a protobuf DescriptorProto: a message name and its fields. -/
structure DescriptorProto where
  name : String
  field : List FieldDescriptorProto
deriving DecidableEq, Repr

/-- Model of _create_package_from_fields: the structural fingerprint of a
descriptor, a pure function of the per-field tuples
(name, number, label, type, type_name). Python feeds this tuple sequence to
the built-in hash to obtain an identifier; the hash is modelled as the tuple
sequence itself, i.e. as a collision-free fingerprint, which is the
documented intent of the function. -/
def _create_package_from_fields (descriptor_proto : DescriptorProto) :
    List (String × Nat × Nat × FieldType × String) :=
  descriptor_proto.field.map fun f => (f.name, f.number, f.label, f.type, f.type_name)

/-- Sentinel name assigned by reconstitute to descriptors with an empty
name. -/
def anonymousSentinel : String := "__INTERNAL_ANONYMOUS__"

/-- Identity of a reconstituted protobuf class. The descriptor pool used by
_make_descriptor memoizes classes by full name, which is the package derived
from the field tuples joined with the (possibly sentinel) descriptor name,
so two descriptors yield the same runtime class exactly when these two
components agree. -/
structure SchemaHandle where
  package : List (String × Nat × Nat × FieldType × String)
  name : String
deriving DecidableEq, Repr

/-- Model of reconstitute: an empty descriptor name is replaced by the
sentinel, the package is computed from the field tuples, and the class
memoized under the resulting full name is returned. -/
def reconstitute (descriptor_proto : DescriptorProto) : SchemaHandle :=
  { package := _create_package_from_fields descriptor_proto,
    name := if descriptor_proto.name = "" then anonymousSentinel
            else descriptor_proto.name }

/-- The reconstituted runtime class as the rest of the client consumes it:
its memoized identity together with its descriptor fields. Because the
package determines the field tuples, the fields of the memoized class always
coincide with the fields of the descriptor being bound. -/
structure BoundSchema where
  handle : SchemaHandle
  fields : List FieldDescriptorProto
deriving DecidableEq, Repr

/-- Binding a descriptor and keeping the resulting class's descriptor
fields. -/
def reconstituteClass (d : DescriptorProto) : BoundSchema :=
  { handle := reconstitute d, fields := d.field }

/-! Model of bonsai/common/state_to_proto.py -/

/-- Values a simulator may put into a state or prediction mapping: numeric,
boolean, string, or a Luminance object. Python floats are abstracted to
integers; none of the verified claims depends on fractional values. -/
inductive Value where
  | num (n : Int)
  | bool (b : Bool)
  | str (s : String)
  | lum (l : Luminance)
deriving DecidableEq, Repr

/-- Values as stored on a protobuf message by convert_state_to_proto. -/
inductive ProtoVal where
  | floatVal (n : Int)
  | intVal (n : Int)
  | boolVal (b : Bool)
  | strVal (s : String)
  | lumVal (width height : Nat) (pixels : List UInt8)
deriving DecidableEq, Repr

/-- Python class name of a value, as read off value.__class__.__name__. -/
def pyClassName : Value → String
  | .num _ => "int"
  | .bool _ => "bool"
  | .str _ => "str"
  | .lum _ => "Luminance"

/-- Model of Python float(value) on the values a simulator may produce: it
succeeds on numerics and booleans and on numeric strings, and fails with
TypeError on a Luminance object. String parsing is abstracted to integer
literals via String.toInt?. -/
def pyFloat : Value → Option Int
  | .num n => some n
  | .bool b => some (if b then 1 else 0)
  | .str s => s.toInt?
  | .lum _ => none

/-- Model of Python int(value), with the same abstraction as pyFloat. -/
def pyInt : Value → Option Int
  | .num n => some n
  | .bool b => some (if b then 1 else 0)
  | .str s => s.toInt?
  | .lum _ => none

/-- Model of Python bool(value): total truthiness. Arbitrary objects such as
Luminance instances are truthy. -/
def pyBool : Value → Bool
  | .num n => n != 0
  | .bool b => b
  | .str s => !s.isEmpty
  | .lum _ => true

/-- Model of Python str(value): total stringification. -/
def pyStr : Value → String
  | .num n => toString n
  | .bool b => if b then "True" else "False"
  | .str s => s
  | .lum _ => "Luminance object"

/-- Exceptions raised while converting a simulator state onto a protobuf
message. fieldNotProvided, expectedFloat and expectedInteger model
SimStateException with the corresponding messages; luminanceExpected models
the SimStateException raised by build_luminance_from_state; and
missingTypeHandler models the KeyError that surfaces when an embedded
message type has no registered handler. -/
inductive SimStateException where
  | fieldNotProvided (name : String)
  | expectedFloat (name : String)
  | expectedInteger (name : String)
  | luminanceExpected (className : String)
  | missingTypeHandler (type_name : String)
deriving DecidableEq, Repr

/-- Model of is_proto_type_embedded_message. -/
def is_proto_type_embedded_message (f : FieldDescriptorProto) : Bool :=
  f.type == .TYPE_MESSAGE

/-- Model of is_proto_type_float. -/
def is_proto_type_float (f : FieldDescriptorProto) : Bool :=
  f.type == .TYPE_DOUBLE || f.type == .TYPE_FLOAT

/-- Model of is_proto_type_integer. -/
def is_proto_type_integer (f : FieldDescriptorProto) : Bool :=
  f.type == .TYPE_INT32 || f.type == .TYPE_INT64 ||
  f.type == .TYPE_SINT32 || f.type == .TYPE_SINT64 ||
  f.type == .TYPE_UINT32 || f.type == .TYPE_UINT64

/-- Model of is_proto_type_boolean. -/
def is_proto_type_boolean (f : FieldDescriptorProto) : Bool :=
  f.type == .TYPE_BOOL

/-- Model of is_proto_type_string. -/
def is_proto_type_string (f : FieldDescriptorProto) : Bool :=
  f.type == .TYPE_STRING

/-- Full name of the message type referenced by an embedded field, as read
off field.message_type.full_name. In a descriptor the referenced type name
may carry a leading dot, which the resolved descriptor's full name lacks. -/
def messageFullName (f : FieldDescriptorProto) : String :=
  if f.type_name.startsWith "." then f.type_name.drop 1 else f.type_name

/-- Model of build_luminance_from_state: the value set on the message must be
an instance of the Luminance class, whose width, height and pixels are copied
onto the embedded message. -/
def build_luminance_from_state (field_name : String) (luminance : Value) :
    Except SimStateException (String × ProtoVal) :=
  match luminance with
  | .lum l => .ok (field_name, .lumVal l.width l.height l.pixels)
  | v => .error (.luminanceExpected (pyClassName v))

/-- Model of build_proto_from_embedded_type: the handler registry
inkling_type_proto_handler is seeded with the Luminance handler only, and a
lookup miss raises (a KeyError in Python). The message_type None branch of
the source only logs; it is unreachable for schemas resolved by the
descriptor pool and is not modelled. -/
def build_proto_from_embedded_type (message_type field_name : String)
    (field_data : Value) : Except SimStateException (String × ProtoVal) :=
  if message_type = "bonsai.inkling_types.proto.Luminance" then
    build_luminance_from_state field_name field_data
  else
    .error (.missingTypeHandler message_type)

/-- Python dict indexing of the state mapping, modelled as first match in an
association list. -/
def lookupVal (state : List (String × Value)) (key : String) : Option Value :=
  match state with
  | [] => none
  | (k, v) :: rest => if k = key then some v else lookupVal rest key

/-- Processing of one field by convert_state_to_proto given the value found
in the mapping: the pair set on the message, none when the field type matches
no branch of the if/elif chain (the field stays unset), or the exception
raised by a failed coercion. -/
def setField (field : FieldDescriptorProto) (value : Value) :
    Except SimStateException (Option (String × ProtoVal)) :=
  if is_proto_type_embedded_message field then
    (build_proto_from_embedded_type (messageFullName field) field.name value).map some
  else if is_proto_type_float field then
    match pyFloat value with
    | some n => .ok (some (field.name, .floatVal n))
    | none => .error (.expectedFloat field.name)
  else if is_proto_type_integer field then
    match pyInt value with
    | some n => .ok (some (field.name, .intVal n))
    | none => .error (.expectedInteger field.name)
  else if is_proto_type_boolean field then
    .ok (some (field.name, .boolVal (pyBool value)))
  else if is_proto_type_string field then
    .ok (some (field.name, .strVal (pyStr value)))
  else
    .ok none

/-- Model of convert_state_to_proto: every field of the message descriptor is
processed in declaration order; the value is looked up in the mapping (a
missing key raises fieldNotProvided naming the field) and coerced according
to the field type. The protobuf message being filled is modelled as the list
of (name, value) pairs set on it. -/
def convert_state_to_proto (fields : List FieldDescriptorProto)
    (state : List (String × Value)) :
    Except SimStateException (List (String × ProtoVal)) :=
  match fields with
  | [] => .ok []
  | f :: rest =>
    match lookupVal state f.name with
    | none => .error (.fieldNotProvided f.name)
    | some v =>
      match setField f v with
      | .error e => .error e
      | .ok none => convert_state_to_proto rest state
      | .ok (some p) => (convert_state_to_proto rest state).map (p :: ·)

/-! Model of bonsai/simulator.py -/

/-- SimState as defined in bonsai/simulator.py: the state mapping together
with the terminal flag. -/
structure SimState where
  state : List (String × Value)
  is_terminal : Bool
deriving DecidableEq, Repr

/-- Model of the simulator object the connection drives. The environment
behaviour that a user subclass supplies is modelled by script (the SimState
that get_state reports after a given number of advance calls) and rewardAt
(the value a bound reward accessor returns at that point); _last_actions and
properties follow the Simulator base class in bonsai/simulator.py. -/
structure Simulator where
  script : Nat → SimState
  rewardAt : Nat → Int
  advCount : Nat
  _last_actions : Option (List (String × Value))
  properties : List (String × Value)

/-- Model of Simulator.get_state. -/
def Simulator.get_state (sim : Simulator) : SimState :=
  sim.script sim.advCount

/-- Model of Simulator.get_last_action. -/
def Simulator.get_last_action (sim : Simulator) :
    Option (List (String × Value)) :=
  sim._last_actions

/-- Model of Simulator.notify_prediction_received: save the predictions as
the last actions. -/
def Simulator.notify_prediction_received (sim : Simulator)
    (predictions : List (String × Value)) : Simulator :=
  { sim with _last_actions := some predictions }

/-- Advancing the simulation one step: the user-implemented advance moves the
environment to its next state, modelled as bumping the index into script. -/
def Simulator.advanceSim (sim : Simulator) : Simulator :=
  { sim with advCount := sim.advCount + 1 }

/-- Model of Simulator.set_properties. -/
def Simulator.set_properties (sim : Simulator)
    (kwargs : List (String × Value)) : Simulator :=
  { sim with properties := kwargs }

/-- Events observed at the simulator callback surface, in the order the
adapter fires them. -/
inductive SimEvent where
  | startEv
  | stopEv
  | resetEv
  | setPropertiesEv (properties : List (String × Value))
  | getStateEv
  | rewardEv (name : String)
  | advanceEv (actions : Option (List (String × Value)))
  | notifyPredictionEv (predictions : List (String × Value))
deriving DecidableEq, Repr

/-! Model of the wire messages of bonsai/proto/generator_simulator_api
restricted to the payloads the client reads and writes. Serialized dynamic
payloads (dynamic_properties, dynamic_prediction) are modelled as the
field-name/value maps they encode. -/

/-- Message types of ServerToSimulator. -/
inductive ServerMsgType where
  | ACKNOWLEDGE_REGISTER
  | SET_PROPERTIES
  | START
  | STOP
  | PREDICTION
  | RESET
  | FINISHED
deriving DecidableEq, Repr

/-- AcknowledgeRegisterData: the three schema descriptors and the assigned
simulator session id. -/
structure AcknowledgeRegisterData where
  properties_schema : DescriptorProto
  output_schema : DescriptorProto
  prediction_schema : DescriptorProto
  sim_id : Nat
deriving DecidableEq, Repr

/-- SetPropertiesData: the serialized properties payload, the reward name,
and the replacement prediction schema. -/
structure SetPropertiesData where
  dynamic_properties : List (String × Value)
  reward_name : String
  prediction_schema : DescriptorProto
deriving DecidableEq, Repr

/-- One entry of a PREDICTION message. -/
structure PredictionData where
  dynamic_prediction : List (String × Value)
deriving DecidableEq, Repr

/-- ServerToSimulator messages as the driver consumes them. -/
structure ServerToSimulator where
  message_type : ServerMsgType
  acknowledge_register_data : Option AcknowledgeRegisterData
  set_properties_data : Option SetPropertiesData
  prediction_data : List PredictionData
deriving DecidableEq, Repr

/-- Message types of SimulatorToServer; UNSET is the default of a freshly
constructed message. -/
inductive SimToServerType where
  | UNSET
  | REGISTER
  | READY
  | STATE
deriving DecidableEq, Repr

/-- One state_data entry of a STATE reply. -/
structure StateData where
  state : List (String × ProtoVal)
  reward : Int
  terminal : Bool
  action_taken : Option (List (String × ProtoVal))
deriving DecidableEq, Repr

/-- SimulatorToServer messages as the driver produces them. -/
structure SimulatorToServer where
  message_type : SimToServerType
  sim_id : Option Nat
  register_simulator_name : Option String
  state_data : List StateData
deriving DecidableEq, Repr

/-- A freshly constructed SimulatorToServer message. -/
def SimulatorToServer.empty : SimulatorToServer :=
  { message_type := .UNSET, sim_id := none,
    register_simulator_name := none, state_data := [] }

/-! Model of bonsai/connections.py -/

/-- Errors that abort a driver step (Python exceptions). pythonTypeError
stands for the TypeError Python raises when a schema class or the simulator
id is used before registration bound it; dispatchKeyError stands for the
KeyError of an unhandled driver state. -/
inductive DriverError where
  | emptyMessage (message_name : String)
  | malformedMessage (missing_field : String)
  | unexpectedMessage (expected : String)
  | stateError (e : SimStateException)
  | pythonTypeError
  | dispatchKeyError
deriving DecidableEq, Repr

/-- Model of the SimulatorConnection state. -/
structure SimulatorConnection where
  _properties_schema : Option BoundSchema
  _output_schema : Option BoundSchema
  _prediction_schema : Option BoundSchema
  _simulator_name : String
  _simulator : Simulator
  _current_reward_name : Option String
  _simulator_id : Option Nat

/-- Default protobuf value read off a parsed message for a field absent from
the serialized payload. -/
def defaultValue (f : FieldDescriptorProto) : Value :=
  match f.type with
  | .TYPE_BOOL => .bool false
  | .TYPE_STRING => .str ""
  | .TYPE_BYTES => .str ""
  | .TYPE_MESSAGE => .lum { width := 0, height := 0, pixels := [] }
  | _ => .num 0

/-- Parsing a serialized dynamic payload with a reconstituted schema class
and reading every descriptor field into a dictionary: the loop over
DESCRIPTOR.fields in handle_set_properties_message and
handle_prediction_message. -/
def parseWithSchema (schema : BoundSchema) (payload : List (String × Value)) :
    List (String × Value) :=
  schema.fields.map fun f => (f.name, (lookupVal payload f.name).getD (defaultValue f))

/-- Model of SimulatorConnection.generate_register_message. -/
def SimulatorConnection.generate_register_message (c : SimulatorConnection)
    (message : SimulatorToServer) : SimulatorToServer :=
  { message with message_type := .REGISTER,
                 register_simulator_name := some c._simulator_name }

/-- Model of SimulatorConnection.handle_register_acknowledgement: bind the
three schemas via reconstitute and record the session id. -/
def SimulatorConnection.handle_register_acknowledgement
    (c : SimulatorConnection) (message : AcknowledgeRegisterData) :
    SimulatorConnection :=
  { c with
    _properties_schema := some (reconstituteClass message.properties_schema),
    _output_schema := some (reconstituteClass message.output_schema),
    _prediction_schema := some (reconstituteClass message.prediction_schema),
    _simulator_id := some message.sim_id }

/-- Model of SimulatorConnection.handle_set_properties_message: parse the
dynamic properties with the bound properties schema, call set_properties on
the simulator, record the reward name, and re-bind the prediction schema. -/
def SimulatorConnection.handle_set_properties_message (c : SimulatorConnection)
    (message : SetPropertiesData) :
    Except DriverError (SimulatorConnection × List SimEvent) :=
  match c._properties_schema with
  | none => .error .pythonTypeError
  | some schema =>
    let properties := parseWithSchema schema message.dynamic_properties
    .ok ({ c with
           _simulator := c._simulator.set_properties properties,
           _current_reward_name := some message.reward_name,
           _prediction_schema := some (reconstituteClass message.prediction_schema) },
         [.setPropertiesEv properties])

/-- The reward accessor name currently in effect: the recorded reward name
when it is set and non-empty (the Python truthiness test). -/
def rewardNameInEffect (c : SimulatorConnection) : Option String :=
  match c._current_reward_name with
  | some nm => if nm = "" then none else some nm
  | none => none

/-- Reward computed while generating a state message, together with the
reward accessor invocation it entails: when a reward name is in effect the
simulator's accessor of that name is called, otherwise the reward is 0. -/
def rewardAndEvents (c : SimulatorConnection) : Int × List SimEvent :=
  match rewardNameInEffect c with
  | some nm => (c._simulator.rewardAt c._simulator.advCount, [.rewardEv nm])
  | none => (0, [])

/-- Model of SimulatorConnection.generate_state_message: set type STATE and
the session id, read the simulator state, invoke the bound reward accessor
(else reward 0), serialize the state with the output schema, and append one
state_data entry carrying state, reward, terminal and, when a last action
exists, its serialization with the prediction schema. -/
def SimulatorConnection.generate_state_message (c : SimulatorConnection)
    (message : SimulatorToServer) :
    Except DriverError (SimulatorConnection × SimulatorToServer × List SimEvent) :=
  match c._simulator_id with
  | none => .error .pythonTypeError
  | some sid =>
    let msg1 := { message with message_type := SimToServerType.STATE,
                               sim_id := some sid }
    let state := c._simulator.get_state
    let rewarded := rewardAndEvents c
    match c._output_schema with
    | none => .error .pythonTypeError
    | some os =>
      match convert_state_to_proto os.fields state.state with
      | .error e => .error (.stateError e)
      | .ok stateMsg =>
        let entry : StateData :=
          { state := stateMsg, reward := rewarded.1,
            terminal := state.is_terminal, action_taken := none }
        match c._simulator.get_last_action with
        | none =>
          .ok (c, { msg1 with state_data := msg1.state_data ++ [entry] },
               .getStateEv :: rewarded.2)
        | some last_action =>
          match c._prediction_schema with
          | none => .error .pythonTypeError
          | some ps =>
            match convert_state_to_proto ps.fields last_action with
            | .error e => .error (.stateError e)
            | .ok actionMsg =>
              .ok (c, { msg1 with state_data :=
                          msg1.state_data ++ [{ entry with action_taken := some actionMsg }] },
                   .getStateEv :: rewarded.2)

/-- Model of SimulatorConnection.handle_start_message. -/
def SimulatorConnection.handle_start_message (c : SimulatorConnection) :
    SimulatorConnection × List SimEvent :=
  (c, [.startEv])

/-- Model of SimulatorConnection.handle_stop_message. -/
def SimulatorConnection.handle_stop_message (c : SimulatorConnection) :
    SimulatorConnection × List SimEvent :=
  (c, [.stopEv])

/-- Model of SimulatorConnection.handle_prediction_message: parse the entry's
dynamic prediction with the bound prediction schema and hand the resulting
dictionary to notify_prediction_received. -/
def SimulatorConnection.handle_prediction_message (c : SimulatorConnection)
    (message : PredictionData) :
    Except DriverError (SimulatorConnection × List SimEvent) :=
  match c._prediction_schema with
  | none => .error .pythonTypeError
  | some schema =>
    let predictions := parseWithSchema schema message.dynamic_prediction
    .ok ({ c with _simulator := c._simulator.notify_prediction_received predictions },
         [.notifyPredictionEv predictions])

/-- Model of SimulatorConnection.handle_finish_message (a pass). -/
def SimulatorConnection.handle_finish_message (c : SimulatorConnection) :
    SimulatorConnection × List SimEvent :=
  (c, [])

/-- Model of SimulatorConnection.handle_reset_message: call reset on the
simulator. -/
def SimulatorConnection.handle_reset_message (c : SimulatorConnection) :
    SimulatorConnection × List SimEvent :=
  (c, [.resetEv])

/-- Model of SimulatorConnection.advance: deliver the last action received to
the simulator's advance. No reset call appears here. -/
def SimulatorConnection.advance (c : SimulatorConnection) :
    SimulatorConnection × List SimEvent :=
  ({ c with _simulator := c._simulator.advanceSim },
   [.advanceEv c._simulator.get_last_action])

/-- Model of SimulatorConnection.generate_ready_message. -/
def SimulatorConnection.generate_ready_message (c : SimulatorConnection)
    (message : SimulatorToServer) : Except DriverError SimulatorToServer :=
  match c._simulator_id with
  | none => .error .pythonTypeError
  | some sid =>
    .ok { message with message_type := .READY, sim_id := some sid }

/-! Model of python/bonsai/drivers.py (training driver) -/

/-- Driver states from the DriverState enumeration. REGISTERED appears in the
enumeration but is never entered. -/
inductive DriverState where
  | UNREGISTERED
  | REGISTERING
  | REGISTERED
  | ACTIVE
  | FINISHED
deriving DecidableEq, Repr

/-- Result of one driver step: the new driver state, the updated connection,
the optional outgoing message, and the simulator callback events fired while
processing, or the exception that aborted the step. -/
abbrev StepResult :=
  Except DriverError
    (DriverState × SimulatorConnection × Option SimulatorToServer × List SimEvent)

namespace SimulatorDriverForTraining

/-- Model of _send_register_message. -/
def _send_register_message (c : SimulatorConnection) : StepResult :=
  .ok (.REGISTERING, c,
       some (c.generate_register_message SimulatorToServer.empty), [])

/-- Model of _handle_registration_acknowledgement for training: an empty
incoming raises EmptyMessageError, a missing acknowledge_register_data field
raises MalformedMessageError, and otherwise the acknowledgement is processed
and a READY reply returned, without ever reading message_type. -/
def _handle_registration_acknowledgement (c : SimulatorConnection)
    (message : Option ServerToSimulator) : StepResult :=
  match message with
  | none => .error (.emptyMessage "ServerToSimulator with AcknowledgeRegisterData")
  | some m =>
    match m.acknowledge_register_data with
    | none => .error (.malformedMessage "acknowledge_register_data")
    | some ack =>
      let c1 := c.handle_register_acknowledgement ack
      match c1.generate_ready_message SimulatorToServer.empty with
      | .error e => .error e
      | .ok reply =>
        if reply.message_type != .READY then
          .error (.unexpectedMessage "READY SimulatorToServer message")
        else
          .ok (.ACTIVE, c1, some reply, [])

/-- Model of _handle_set_properties_message. -/
def _handle_set_properties_message (c : SimulatorConnection)
    (m : ServerToSimulator) : StepResult :=
  match m.set_properties_data with
  | none => .error (.malformedMessage "set_properties_data")
  | some data =>
    match c.handle_set_properties_message data with
    | .error e => .error e
    | .ok (c1, events) =>
      match c1.generate_ready_message SimulatorToServer.empty with
      | .error e => .error e
      | .ok reply =>
        if reply.message_type != .READY then
          .error (.unexpectedMessage "READY SimulatorToServer message")
        else
          .ok (.ACTIVE, c1, some reply, events)

/-- Model of _handle_start_message. -/
def _handle_start_message (c : SimulatorConnection) : StepResult :=
  let (c1, events) := c.handle_start_message
  match c1.generate_state_message SimulatorToServer.empty with
  | .error e => .error e
  | .ok (c2, reply, events2) =>
    if reply.message_type != .STATE then
      .error (.unexpectedMessage "STATE SimulatorToServer message")
    else if reply.state_data.length = 0 then
      .error (.malformedMessage "state_data")
    else
      .ok (.ACTIVE, c2, some reply, events ++ events2)

/-- Model of _handle_stop_message. -/
def _handle_stop_message (c : SimulatorConnection) : StepResult :=
  let (c1, events) := c.handle_stop_message
  match c1.generate_ready_message SimulatorToServer.empty with
  | .error e => .error e
  | .ok reply =>
    if reply.message_type != .READY then
      .error (.unexpectedMessage "READY SimulatorToServer message")
    else
      .ok (.ACTIVE, c1, some reply, events)

/-- The for-loop body of _handle_prediction_message, iterated over the
prediction_data entries: handle_prediction_message, advance, then
generate_state_message accumulating into the one reply being built. -/
def predictionLoop (c : SimulatorConnection) (entries : List PredictionData)
    (reply : SimulatorToServer) :
    Except DriverError (SimulatorConnection × SimulatorToServer × List SimEvent) :=
  match entries with
  | [] => .ok (c, reply, [])
  | p :: rest =>
    match c.handle_prediction_message p with
    | .error e => .error e
    | .ok (c1, ev1) =>
      let (c2, ev2) := c1.advance
      match c2.generate_state_message reply with
      | .error e => .error e
      | .ok (c3, reply1, ev3) =>
        match predictionLoop c3 rest reply1 with
        | .error e => .error e
        | .ok (c4, reply2, ev4) => .ok (c4, reply2, ev1 ++ ev2 ++ ev3 ++ ev4)

/-- Model of _handle_prediction_message for training: a PREDICTION with no
prediction_data entries raises MalformedMessageError; otherwise each entry is
processed by the loop and the single accumulated reply is checked to be a
STATE message. The check of the incoming message for emptiness is performed
by the ACTIVE-state dispatcher. -/
def _handle_prediction_message (c : SimulatorConnection)
    (m : ServerToSimulator) : StepResult :=
  if m.prediction_data.length = 0 then
    .error (.malformedMessage "prediction_data")
  else
    match predictionLoop c m.prediction_data SimulatorToServer.empty with
    | .error e => .error e
    | .ok (c1, reply, events) =>
      if reply.message_type != .STATE then
        .error (.unexpectedMessage "STATE SimulatorToServer message")
      else
        .ok (.ACTIVE, c1, some reply, events)

/-- Model of _handle_reset_message. -/
def _handle_reset_message (c : SimulatorConnection) : StepResult :=
  let (c1, events) := c.handle_reset_message
  match c1.generate_ready_message SimulatorToServer.empty with
  | .error e => .error e
  | .ok reply =>
    if reply.message_type != .READY then
      .error (.unexpectedMessage "READY SimulatorToServer message")
    else
      .ok (.ACTIVE, c1, some reply, events)

/-- Model of _handle_finished_message: notify the connection and move to
FINISHED with no reply. -/
def _handle_finished_message (c : SimulatorConnection) : StepResult :=
  let (c1, events) := c.handle_finish_message
  .ok (.FINISHED, c1, none, events)

/-- Model of _handle_runtime_message: an empty incoming raises
EmptyMessageError, a message type absent from the _active_funcs table raises
UnexpectedMessageError, and the rest dispatches on message_type. -/
def _handle_runtime_message (c : SimulatorConnection)
    (message : Option ServerToSimulator) : StepResult :=
  match message with
  | none => .error (.emptyMessage "ServerToSimulator")
  | some m =>
    match m.message_type with
    | .SET_PROPERTIES => _handle_set_properties_message c m
    | .START => _handle_start_message c
    | .STOP => _handle_stop_message c
    | .PREDICTION => _handle_prediction_message c m
    | .RESET => _handle_reset_message c
    | .FINISHED => _handle_finished_message c
    | .ACKNOWLEDGE_REGISTER => .error (.unexpectedMessage "one of the active message types")

/-- Model of SimulatorDriverForTraining.next: dispatch on the driver state
via the _state_funcs table. The FINISHED entry is _do_nothing; REGISTERED has
no entry, so reaching it would raise a KeyError. -/
def next (st : DriverState) (c : SimulatorConnection)
    (message : Option ServerToSimulator) : StepResult :=
  match st with
  | .UNREGISTERED => _send_register_message c
  | .REGISTERING => _handle_registration_acknowledgement c message
  | .ACTIVE => _handle_runtime_message c message
  | .FINISHED => .ok (.FINISHED, c, none, [])
  | .REGISTERED => .error .dispatchKeyError

end SimulatorDriverForTraining

/-- Projection of a step result onto its decidable components (driver state,
outgoing message, events), dropping the connection. -/
def stepProj (r : StepResult) :
    Option (DriverState × Option SimulatorToServer × List SimEvent) :=
  r.toOption.map fun t => (t.1, t.2.2.1, t.2.2.2)

/-! Model of the transport loops: bonsai/websocket_event_loop.py,
python/bonsai/tornado_event_loop.py, bonsai/asyncio_event_loop.py and
python/bonsai/asyncio_event_loop.py -/

/-- How a transport-loop run begins: either it raises the fatal access-key
RuntimeError, or it proceeds to attempt the connection to the server. -/
inductive RunStart where
  | raiseAccessKeyError
  | connectToServer
deriving DecidableEq, Repr

/-- Python truthiness of the access key: None and the empty string are
falsy. -/
def truthyKey : Option String → Bool
  | none => false
  | some s => !s.isEmpty

/-- Model of the start of _Runner.run in bonsai/websocket_event_loop.py: the
access key is checked before the WebSocketApp is created. -/
def websocket_run_start (access_key : Option String) : RunStart :=
  if truthyKey access_key then .connectToServer else .raiseAccessKeyError

/-- Model of the start of _Runner.run in python/bonsai/tornado_event_loop.py:
the access key is checked before the HTTPRequest is built. -/
def tornado_run_start (access_key : Option String) : RunStart :=
  if truthyKey access_key then .connectToServer else .raiseAccessKeyError

/-- Model of the start of _Runner.run in bonsai/asyncio_event_loop.py: no
access key check is performed; the run connects immediately. -/
def asyncio_run_start (_ : Option String) : RunStart :=
  .connectToServer

/-- Model of the start of _Runner.run in python/bonsai/asyncio_event_loop.py:
the access key is checked before connecting. -/
def python_asyncio_run_start (access_key : Option String) : RunStart :=
  if truthyKey access_key then .connectToServer else .raiseAccessKeyError

/-! Model of the recorder of bonsai/websocket_event_loop.py -/

/-- One item of the recording queue: a line of text, or the None sentinel
that makes the writer exit. -/
abbrev QueueItem := Option String

/-- Printable name of a ServerToSimulator message type. -/
def serverMsgTypeName : ServerMsgType → String
  | .ACKNOWLEDGE_REGISTER => "ACKNOWLEDGE_REGISTER"
  | .SET_PROPERTIES => "SET_PROPERTIES"
  | .START => "START"
  | .STOP => "STOP"
  | .PREDICTION => "PREDICTION"
  | .RESET => "RESET"
  | .FINISHED => "FINISHED"

/-- Printable name of a SimulatorToServer message type. -/
def simMsgTypeName : SimToServerType → String
  | .UNSET => "UNSET"
  | .REGISTER => "REGISTER"
  | .READY => "READY"
  | .STATE => "STATE"

/-- One-line textual serialization (MessageToString with as_one_line) of an
incoming message. The serialization is abstracted to its leading
message_type field; the recorder claims depend only on the body being a
single line distinct from the direction tokens. -/
def serializeServerMsg (m : ServerToSimulator) : String :=
  "message_type: " ++ serverMsgTypeName m.message_type

/-- One-line textual serialization of an outgoing message, with the same
abstraction as serializeServerMsg. -/
def serializeSimMsg (m : SimulatorToServer) : String :=
  "message_type: " ++ simMsgTypeName m.message_type

/-- Model of _Runner._record: enqueue the direction token, then one line that
is either the message body or the literal None. -/
def _record (send_or_recv : QueueItem) (body : Option String) : List QueueItem :=
  [send_or_recv, some (body.getD "None")]

/-- Recording of a received message. -/
def recordRecv (m : Option ServerToSimulator) : List QueueItem :=
  _record (some "RECV") (m.map serializeServerMsg)

/-- Recording of a sent message. -/
def recordSend (m : Option SimulatorToServer) : List QueueItem :=
  _record (some "SEND") (m.map serializeSimMsg)

/-- Queue contents produced by a websocket session: _handle_message records
the received message and then the message the driver produced, once per
exchange, and the run method's finally block records the None sentinel. -/
def sessionQueue
    (exchanges : List (Option ServerToSimulator × Option SimulatorToServer)) :
    List QueueItem :=
  (exchanges.flatMap fun e => recordRecv e.1 ++ recordSend e.2) ++ _record none none

/-- Model of _Runner.record_to_file: write queued lines to the file until a
falsy item (the None sentinel or an empty line) is dequeued. The file is the
list of lines written. -/
def record_to_file : List QueueItem → List String
  | [] => []
  | none :: _ => []
  | some line :: rest => if line = "" then [] else line :: record_to_file rest

/-! Model of _Runner._handle_message of bonsai/websocket_event_loop.py and of
the loop body of _Runner.run of python/bonsai/tornado_event_loop.py -/

/-- What one transport step does after the driver step: the driver raised;
the driver reached FINISHED, so the sentinel is enqueued (when a recording
file is configured) and the socket closed; the driver returned no outgoing
message while not FINISHED, a fatal RuntimeError; or the outgoing message is
serialized and sent. -/
inductive StepOutcome where
  | driverRaised (e : DriverError)
  | closedAfterFinish (sentinelEnqueued : Bool)
  | fatalNoOutput
  | sentToServer (m : SimulatorToServer)
deriving DecidableEq, Repr

/-- Model of _Runner._handle_message: run driver.next, then close (enqueuing
the recorder sentinel when recording) if the driver is FINISHED, raise the
fatal RuntimeError if there is no outgoing message, and send it otherwise. -/
def handle_message (st : DriverState) (c : SimulatorConnection)
    (message : Option ServerToSimulator) (recording : Bool) : StepOutcome :=
  match SimulatorDriverForTraining.next st c message with
  | .error e => .driverRaised e
  | .ok (st1, _, output_message, _) =>
    if st1 = .FINISHED then
      .closedAfterFinish recording
    else
      match output_message with
      | none => .fatalNoOutput
      | some m => .sentToServer m

/-- Model of the tornado run loop body after driver.next: when the driver is
not FINISHED a missing outgoing message raises the fatal RuntimeError and
otherwise the message is sent; when it is FINISHED the loop exits and the
finally block enqueues the sentinel (when recording) and closes the
socket. -/
def tornado_loop_step (st1 : DriverState) (output_message : Option SimulatorToServer)
    (recording : Bool) : StepOutcome :=
  if st1 != .FINISHED then
    match output_message with
    | none => .fatalNoOutput
    | some m => .sentToServer m
  else
    .closedAfterFinish recording

/-! Concrete fixtures used by witnesses and counterexamples -/

/-- A one-field int32 descriptor field. -/
def demoField : FieldDescriptorProto :=
  { name := "a", number := 1, label := 1, type := .TYPE_INT32, type_name := "" }

/-- A one-field demo descriptor. -/
def demoSchema : DescriptorProto := { name := "demo", field := [demoField] }

/-- A simulator whose every reported state is terminal. -/
def termSim : Simulator :=
  { script := fun _ => { state := [("a", .num 1)], is_terminal := true },
    rewardAt := fun _ => 0, advCount := 0, _last_actions := none,
    properties := [] }

/-- A registered connection around termSim with all three schemas bound to
the demo schema and session id 7. -/
def termConn : SimulatorConnection :=
  { _properties_schema := some (reconstituteClass demoSchema),
    _output_schema := some (reconstituteClass demoSchema),
    _prediction_schema := some (reconstituteClass demoSchema),
    _simulator_name := "cartpole", _simulator := termSim,
    _current_reward_name := none, _simulator_id := some 7 }

/-- A START message. -/
def startMsg : ServerToSimulator :=
  { message_type := .START, acknowledge_register_data := none,
    set_properties_data := none, prediction_data := [] }

/-- A RESET message. -/
def resetMsg : ServerToSimulator :=
  { message_type := .RESET, acknowledge_register_data := none,
    set_properties_data := none, prediction_data := [] }

/-- A FINISHED message. -/
def finishedMsg : ServerToSimulator :=
  { message_type := .FINISHED, acknowledge_register_data := none,
    set_properties_data := none, prediction_data := [] }

/-- A PREDICTION message carrying one prediction entry. -/
def predMsg1 : ServerToSimulator :=
  { message_type := .PREDICTION, acknowledge_register_data := none,
    set_properties_data := none,
    prediction_data := [{ dynamic_prediction := [("a", .num 0)] }] }

/-- A PREDICTION message carrying two prediction entries. -/
def predMsg2 : ServerToSimulator :=
  { message_type := .PREDICTION, acknowledge_register_data := none,
    set_properties_data := none,
    prediction_data := [{ dynamic_prediction := [("a", .num 0)] },
                        { dynamic_prediction := [("a", .num 2)] }] }

/-- Registration acknowledgement binding the demo schema three times with
session id 7. -/
def demoAck : AcknowledgeRegisterData :=
  { properties_schema := demoSchema, output_schema := demoSchema,
    prediction_schema := demoSchema, sim_id := 7 }

/-- An ACKNOWLEDGE_REGISTER message carrying demoAck. -/
def ackMsg : ServerToSimulator :=
  { message_type := .ACKNOWLEDGE_REGISTER,
    acknowledge_register_data := some demoAck,
    set_properties_data := none, prediction_data := [] }

/-! Claim C10: Luminance construction -/

/-- Packing n pixels yields 4 n bytes. -/
theorem length_flatMap_pack4 (xs : List Int) :
    (xs.flatMap pack4).length = 4 * xs.length := by
  induction xs with
  | nil => simp
  | cons x xs ih =>
    simp only [List.flatMap_cons, List.length_append, ih, pack4,
      List.length_cons, List.length_nil]
    omega

/-- C10: a bytes pixels argument succeeds exactly when its length is
width * height * 4 and fails with ValueError otherwise; a non-bytes
iterable succeeds exactly when its length is width * height, packing each
element as a 4-byte float, and fails with ValueError on the wrong length; a
non-iterable pixels argument fails with TypeError; on success the stored
pixels have length width * height * 4 and width and height are stored
unchanged. -/
theorem luminance_init_c10 (w h : Nat) :
    (∀ b l, Luminance.init w h (.bytes b) = .ok l →
        l.width = w ∧ l.height = h ∧ l.pixels = b ∧ l.pixels.length = w * h * 4)
    ∧ (∀ b, (Luminance.init w h (.bytes b)).isOk = true ↔ b.length = w * h * 4)
    ∧ (∀ b, b.length ≠ w * h * 4 → Luminance.init w h (.bytes b) = .error .valueError)
    ∧ (∀ xs l, Luminance.init w h (.iter xs) = .ok l →
        l.width = w ∧ l.height = h ∧ l.pixels.length = w * h * 4)
    ∧ (∀ xs, (Luminance.init w h (.iter xs)).isOk = true ↔ xs.length = w * h)
    ∧ (∀ xs, xs.length ≠ w * h → Luminance.init w h (.iter xs) = .error .valueError)
    ∧ Luminance.init w h .nonIterable = .error .typeError := by
  refine ⟨?_, ?_, ?_, ?_, ?_, ?_, rfl⟩
  · intro b l hl
    simp only [Luminance.init] at hl
    split at hl
    · rename_i hlen
      cases hl
      exact ⟨rfl, rfl, rfl, hlen⟩
    · cases hl
  · intro b
    simp only [Luminance.init]
    split
    · rename_i hlen
      simpa [Except.isOk, Except.toBool] using hlen
    · rename_i hlen
      simpa [Except.isOk, Except.toBool] using hlen
  · intro b hb
    simp only [Luminance.init]
    rw [if_neg hb]
  · intro xs l hl
    simp only [Luminance.init] at hl
    split at hl
    · rename_i hlen
      cases hl
      refine ⟨rfl, rfl, ?_⟩
      show (xs.flatMap pack4).length = w * h * 4
      rw [length_flatMap_pack4, hlen]
      ring
    · cases hl
  · intro xs
    simp only [Luminance.init]
    split
    · rename_i hlen
      simpa [Except.isOk, Except.toBool] using hlen
    · rename_i hlen
      simpa [Except.isOk, Except.toBool] using hlen
  · intro xs hxs
    simp only [Luminance.init]
    rw [if_neg hxs]

/-- Witness for C10: concrete successful and failing constructions. -/
theorem luminance_init_c10_witness :
    (Luminance.init 1 1 (.bytes [0, 0, 0, 0])).isOk = true ∧
    Luminance.init 1 1 (.bytes [0]) = .error .valueError ∧
    Luminance.init 1 1 .nonIterable = .error .typeError :=
  ⟨((luminance_init_c10 1 1).2.1 [0, 0, 0, 0]).mpr (by decide),
   (luminance_init_c10 1 1).2.2.1 [0] (by decide),
   (luminance_init_c10 1 1).2.2.2.2.2.2⟩

/-! Claims C3 and C4: schema binder memoization -/

/-- Descriptors with different names and identical fields (the shape of
test_reconstitute_two_schemas_different_names_same_fields). -/
def fprDescriptorA : DescriptorProto := { name := "test_5_1", field := [demoField] }

/-- Companion of fprDescriptorA with the other name. -/
def fprDescriptorB : DescriptorProto := { name := "test_5_2", field := [demoField] }

/-- Shared characterization of handle equality: two descriptors bind to the
same runtime class exactly when their fields-derived packages agree and
their names agree after the empty name is replaced by the sentinel. -/
theorem reconstitute_eq_characterization (d1 d2 : DescriptorProto) :
    reconstitute d1 = reconstitute d2 ↔
      (_create_package_from_fields d1 = _create_package_from_fields d2 ∧
       (if d1.name = "" then anonymousSentinel else d1.name) =
       (if d2.name = "" then anonymousSentinel else d2.name)) := by
  simp [reconstitute, SchemaHandle.mk.injEq]

/-- The fingerprint determines and is determined by the field list. -/
theorem package_eq_iff_fields_eq (d1 d2 : DescriptorProto) :
    _create_package_from_fields d1 = _create_package_from_fields d2 ↔
      d1.field = d2.field := by
  unfold _create_package_from_fields
  constructor
  · intro h
    have hinj : Function.Injective
        (fun f : FieldDescriptorProto => (f.name, f.number, f.label, f.type, f.type_name)) := by
      intro a b hab
      cases a
      cases b
      simp_all
    exact List.map_injective_iff.mpr hinj h
  · intro h
    rw [h]

/-- C3 counterexample: two descriptors with identical fields, hence equal
structural fingerprints, but different names bind to distinct schema
handles, so handle equality is not equivalent to fingerprint equality. -/
theorem bind_iff_fingerprint_counterexample :
    _create_package_from_fields fprDescriptorA = _create_package_from_fields fprDescriptorB
    ∧ reconstitute fprDescriptorA ≠ reconstitute fprDescriptorB := by
  decide

/-- C3 amended: binding yields the same schema handle iff the structural
fingerprints are equal and additionally the descriptor names, after an empty
name is replaced by the anonymous sentinel, are equal. -/
theorem bind_eq_iff_fingerprint_and_name (d1 d2 : DescriptorProto) :
    reconstitute d1 = reconstitute d2 ↔
      (_create_package_from_fields d1 = _create_package_from_fields d2 ∧
       (if d1.name = "" then anonymousSentinel else d1.name) =
       (if d2.name = "" then anonymousSentinel else d2.name)) :=
  reconstitute_eq_characterization d1 d2

/-- Witness for the amended C3 at a concrete pair of descriptors. -/
theorem bind_eq_iff_fingerprint_and_name_witness :
    reconstitute fprDescriptorA ≠ reconstitute fprDescriptorB :=
  fun h => by
    have := (bind_eq_iff_fingerprint_and_name fprDescriptorA fprDescriptorB).mp h
    exact absurd this.2 (by decide)

/-- An anonymous descriptor. -/
def anonDescriptor : DescriptorProto := { name := "", field := [] }

/-- A descriptor that explicitly carries the sentinel name. -/
def sentinelDescriptor : DescriptorProto :=
  { name := "__INTERNAL_ANONYMOUS__", field := [] }

/-- C4 counterexample: a descriptor with empty name and a descriptor that
explicitly bears the sentinel name differ in the name component and have
identical fields, yet bind to the same schema handle. -/
theorem bind_distinct_counterexample :
    anonDescriptor.name ≠ sentinelDescriptor.name
    ∧ anonDescriptor.field = sentinelDescriptor.field
    ∧ reconstitute anonDescriptor = reconstitute sentinelDescriptor := by
  decide

/-- C4 amended: descriptors bind to distinct handles whenever they differ in
their field tuple sequences or differ in their names after an empty name is
replaced by the anonymous sentinel; in particular, same-name descriptors
with different fields and different-nonempty-name descriptors with identical
fields always get distinct handles. -/
theorem bind_distinct_amended (d1 d2 : DescriptorProto)
    (h : d1.field ≠ d2.field ∨
         (if d1.name = "" then anonymousSentinel else d1.name) ≠
         (if d2.name = "" then anonymousSentinel else d2.name)) :
    reconstitute d1 ≠ reconstitute d2 := by
  intro heq
  have hc := (reconstitute_eq_characterization d1 d2).mp heq
  rcases h with hf | hn
  · exact hf ((package_eq_iff_fields_eq d1 d2).mp hc.1)
  · exact hn hc.2

/-- Witness for the amended C4 at a concrete pair of descriptors. -/
theorem bind_distinct_amended_witness :
    reconstitute fprDescriptorA ≠ reconstitute fprDescriptorB :=
  bind_distinct_amended fprDescriptorA fprDescriptorB (Or.inr (by decide))

/-! Claim C6: access key check before connecting -/

/-- C6 counterexample: the asyncio event loop of bonsai/asyncio_event_loop.py
proceeds to connect even when the access key is absent, while the websocket
loop raises the fatal error, so the claim fails for that variant. -/
theorem access_key_check_counterexample :
    asyncio_run_start none = .connectToServer
    ∧ websocket_run_start none = .raiseAccessKeyError := by
  decide

/-- C6 amended: with an absent (None or empty) access key the websocket,
tornado and python/ asyncio loop variants raise the fatal RuntimeError
before attempting the connection, while the bonsai/ asyncio variant attempts
the connection without any check. -/
theorem access_key_check_amended (k : Option String)
    (h : k = none ∨ k = some "") :
    websocket_run_start k = .raiseAccessKeyError
    ∧ tornado_run_start k = .raiseAccessKeyError
    ∧ python_asyncio_run_start k = .raiseAccessKeyError
    ∧ asyncio_run_start k = .connectToServer := by
  rcases h with rfl | rfl <;> exact ⟨rfl, rfl, rfl, rfl⟩

/-- Witness for the amended C6 at the absent key. -/
theorem access_key_check_amended_witness :
    websocket_run_start none = .raiseAccessKeyError
    ∧ tornado_run_start none = .raiseAccessKeyError
    ∧ python_asyncio_run_start none = .raiseAccessKeyError
    ∧ asyncio_run_start none = .connectToServer :=
  access_key_check_amended none (Or.inl rfl)

/-! Claim C5: state projection, missing and extra keys -/

/-- Filtering the mapping does not change lookups at keys every entry of
which the filter keeps. -/
theorem lookupVal_filter (p : String × Value → Bool)
    (mapping : List (String × Value)) (k : String)
    (hp : ∀ v, p (k, v) = true) :
    lookupVal (mapping.filter p) k = lookupVal mapping k := by
  induction mapping with
  | nil => rfl
  | cons kv rest ih =>
    obtain ⟨k1, v⟩ := kv
    by_cases hk : k1 = k
    · subst hk
      rw [List.filter_cons, if_pos (hp v)]
      simp [lookupVal]
    · rw [List.filter_cons]
      by_cases hpv : p (k1, v) = true
      · rw [if_pos hpv]
        simp [lookupVal, hk, ih]
      · rw [if_neg hpv]
        simp [lookupVal, hk, ih]

/-- Projection is unchanged by dropping mapping entries whose keys are kept
by a filter that keeps every schema field name. -/
theorem convert_state_to_proto_filter (fs : List FieldDescriptorProto)
    (mapping : List (String × Value)) (p : String × Value → Bool)
    (hp : ∀ f ∈ fs, ∀ v, p (f.name, v) = true) :
    convert_state_to_proto fs (mapping.filter p) =
      convert_state_to_proto fs mapping := by
  induction fs with
  | nil => rfl
  | cons f rest ih =>
    have hf := hp f (List.mem_cons_self f rest)
    have hr : ∀ g ∈ rest, ∀ v, p (g.name, v) = true := fun g hg =>
      hp g (List.mem_cons_of_mem f hg)
    simp only [convert_state_to_proto, lookupVal_filter p mapping f.name hf, ih hr]

/-- With well-typed present values, a missing schema field makes the
projection fail with the fieldNotProvided error naming a missing field. -/
theorem convert_state_to_proto_missing (fields : List FieldDescriptorProto)
    (mapping : List (String × Value))
    (hwt : ∀ f ∈ fields,
      ((lookupVal mapping f.name).all fun v => (setField f v).isOk) = true) :
    (∃ f ∈ fields, lookupVal mapping f.name = none) →
      ∃ f ∈ fields, lookupVal mapping f.name = none ∧
        convert_state_to_proto fields mapping = .error (.fieldNotProvided f.name) := by
  induction fields with
  | nil =>
    rintro ⟨f, hf, -⟩
    cases hf
  | cons f rest ih =>
    intro hex
    cases hlf : lookupVal mapping f.name with
    | none =>
      exact ⟨f, List.mem_cons_self f rest, hlf,
        by simp [convert_state_to_proto, hlf]⟩
    | some v =>
      have hok : (setField f v).isOk = true := by
        have := hwt f (List.mem_cons_self f rest)
        rw [hlf] at this
        simpa using this
      have hex1 : ∃ g ∈ rest, lookupVal mapping g.name = none := by
        rcases hex with ⟨g, hg, hgn⟩
        rcases List.mem_cons.mp hg with rfl | hg1
        · rw [hlf] at hgn
          cases hgn
        · exact ⟨g, hg1, hgn⟩
      have hwt1 : ∀ g ∈ rest,
          ((lookupVal mapping g.name).all fun v => (setField g v).isOk) = true :=
        fun g hg => hwt g (List.mem_cons_of_mem f hg)
      obtain ⟨g, hg, hgn, hconv⟩ := ih hwt1 hex1
      refine ⟨g, List.mem_cons_of_mem f hg, hgn, ?_⟩
      simp only [convert_state_to_proto, hlf]
      rcases hsf : setField f v with e | o
      · rw [hsf] at hok
        cases hok
      · cases o with
        | none => exact hconv
        | some pr => simp [hconv, Except.map]

/-- With well-typed present values and no missing schema field, the
projection succeeds. -/
theorem convert_state_to_proto_ok (fields : List FieldDescriptorProto)
    (mapping : List (String × Value))
    (hwt : ∀ f ∈ fields,
      ((lookupVal mapping f.name).all fun v => (setField f v).isOk) = true) :
    (∀ f ∈ fields, (lookupVal mapping f.name).isSome = true) →
      (convert_state_to_proto fields mapping).isOk = true := by
  induction fields with
  | nil =>
    intro _
    rfl
  | cons f rest ih =>
    intro hall
    have hs := hall f (List.mem_cons_self f rest)
    cases hlf : lookupVal mapping f.name with
    | none =>
      rw [hlf] at hs
      cases hs
    | some v =>
      have hok : (setField f v).isOk = true := by
        have := hwt f (List.mem_cons_self f rest)
        rw [hlf] at this
        simpa using this
      have hwt1 : ∀ g ∈ rest,
          ((lookupVal mapping g.name).all fun v => (setField g v).isOk) = true :=
        fun g hg => hwt g (List.mem_cons_of_mem f hg)
      have hall1 : ∀ g ∈ rest, (lookupVal mapping g.name).isSome = true :=
        fun g hg => hall g (List.mem_cons_of_mem f hg)
      have hrest := ih hwt1 hall1
      simp only [convert_state_to_proto, hlf]
      rcases hsf : setField f v with e | o
      · rw [hsf] at hok
        cases hok
      · cases o with
        | none => exact hrest
        | some pr =>
          rcases hc : convert_state_to_proto rest mapping with e1 | l1
          · rw [hc] at hrest
            cases hrest
          · rfl

/-- C5: for a mapping whose present values coerce successfully, projecting
it onto a schema fails with a StateError of the form fieldNotProvided naming
a field whenever some schema field has no key in the mapping; keys that name
no schema field are ignored, the projection being unchanged when the mapping
is restricted to the schema's field names; and when no schema field is
missing the projection succeeds. -/
theorem convert_state_c5 (fields : List FieldDescriptorProto)
    (mapping : List (String × Value))
    (hwt : ∀ f ∈ fields,
      ((lookupVal mapping f.name).all fun v => (setField f v).isOk) = true) :
    ((∃ f ∈ fields, lookupVal mapping f.name = none) →
      ∃ f ∈ fields, lookupVal mapping f.name = none ∧
        convert_state_to_proto fields mapping = .error (.fieldNotProvided f.name))
    ∧ convert_state_to_proto fields mapping
        = convert_state_to_proto fields
            (mapping.filter fun kv => fields.any fun f => f.name == kv.1)
    ∧ ((∀ f ∈ fields, (lookupVal mapping f.name).isSome = true) →
      (convert_state_to_proto fields mapping).isOk = true) := by
  refine ⟨convert_state_to_proto_missing fields mapping hwt, ?_,
    convert_state_to_proto_ok fields mapping hwt⟩
  refine (convert_state_to_proto_filter fields mapping _ ?_).symm
  intro f hf v
  simp only [List.any_eq_true]
  exact ⟨f, hf, by simp⟩

/-- Witness for C5: a missing field fails naming it, and a complete mapping
with an extra key succeeds. -/
theorem convert_state_c5_witness :
    (∃ f ∈ [demoField], lookupVal [] f.name = none ∧
      convert_state_to_proto [demoField] [] = .error (.fieldNotProvided f.name))
    ∧ (convert_state_to_proto [demoField]
        [("a", .num 1), ("extra", .str "x")]).isOk = true :=
  ⟨(convert_state_c5 [demoField] [] (by decide)).1 ⟨demoField, by decide, rfl⟩,
   (convert_state_c5 [demoField] [("a", .num 1), ("extra", .str "x")]
      (by decide)).2.2 (by decide)⟩

/-! Driver-level helper lemmas -/

/-- Characterization of a successful generate_state_message: the connection
is returned unchanged, the reply is a STATE message, exactly one state_data
entry was appended, and the simulator saw get_state followed by the reward
accessor when one is in effect. -/
theorem generate_state_message_spec (c : SimulatorConnection)
    (msg : SimulatorToServer) (c2 : SimulatorConnection)
    (msg2 : SimulatorToServer) (evs : List SimEvent)
    (h : c.generate_state_message msg = .ok (c2, msg2, evs)) :
    c2 = c ∧ msg2.message_type = .STATE
    ∧ msg2.state_data.length = msg.state_data.length + 1
    ∧ evs = .getStateEv ::
        (rewardNameInEffect c).elim [] (fun nm => [.rewardEv nm]) := by
  unfold SimulatorConnection.generate_state_message at h
  rcases hsid : c._simulator_id with _ | sid
  · simp only [hsid] at h
    exact Except.noConfusion h
  · simp only [hsid] at h
    rcases hos : c._output_schema with _ | os
    · simp only [hos] at h
      exact Except.noConfusion h
    · simp only [hos] at h
      rcases hcv : convert_state_to_proto os.fields c._simulator.get_state.state
          with e | sm
      · simp only [hcv] at h
        exact Except.noConfusion h
      · simp only [hcv] at h
        rcases hla : c._simulator.get_last_action with _ | la
        · simp only [hla, Except.ok.injEq, Prod.mk.injEq] at h
          obtain ⟨rfl, rfl, rfl⟩ := h
          refine ⟨rfl, rfl, by simp, ?_⟩
          rcases hrn : rewardNameInEffect c with _ | nm <;>
            simp [rewardAndEvents, hrn]
        · simp only [hla] at h
          rcases hps : c._prediction_schema with _ | ps
          · simp only [hps] at h
            exact Except.noConfusion h
          · simp only [hps] at h
            rcases hcv2 : convert_state_to_proto ps.fields la with e | am
            · simp only [hcv2] at h
              exact Except.noConfusion h
            · simp only [hcv2, Except.ok.injEq, Prod.mk.injEq] at h
              obtain ⟨rfl, rfl, rfl⟩ := h
              refine ⟨rfl, rfl, by simp, ?_⟩
              rcases hrn : rewardNameInEffect c with _ | nm <;>
                simp [rewardAndEvents, hrn]

/-- Characterization of a successful prediction loop run: the prediction
schema and the reward name are unchanged, one state_data entry is
accumulated per prediction entry, the accumulated reply is a STATE message
once at least one entry has been processed, and the simulator sees, per
entry in order, notify_prediction_received with the parsed predictions,
advance with those predictions as the last action, and then the state
generation events. -/
theorem predictionLoop_spec (entries : List PredictionData) :
    ∀ (c : SimulatorConnection) (reply : SimulatorToServer) (ps : BoundSchema)
      (c1 : SimulatorConnection) (reply1 : SimulatorToServer) (evs : List SimEvent),
    SimulatorDriverForTraining.predictionLoop c entries reply = .ok (c1, reply1, evs) →
    c._prediction_schema = some ps →
    c1._prediction_schema = some ps
    ∧ rewardNameInEffect c1 = rewardNameInEffect c
    ∧ reply1.state_data.length = reply.state_data.length + entries.length
    ∧ (entries ≠ [] → reply1.message_type = .STATE)
    ∧ evs = entries.flatMap (fun p =>
        [.notifyPredictionEv (parseWithSchema ps p.dynamic_prediction),
         .advanceEv (some (parseWithSchema ps p.dynamic_prediction)),
         .getStateEv] ++ (rewardNameInEffect c).elim [] (fun nm => [.rewardEv nm])) := by
  induction entries with
  | nil =>
    intro c reply ps c1 reply1 evs h hps
    simp only [SimulatorDriverForTraining.predictionLoop, Except.ok.injEq,
      Prod.mk.injEq] at h
    obtain ⟨rfl, rfl, rfl⟩ := h
    exact ⟨hps, rfl, by simp, fun hne => absurd rfl hne, by simp⟩
  | cons p rest ih =>
    intro c reply ps c1 reply1 evs h hps
    simp only [SimulatorDriverForTraining.predictionLoop,
      SimulatorConnection.handle_prediction_message, hps,
      SimulatorConnection.advance, Simulator.get_last_action,
      Simulator.notify_prediction_received] at h
    split at h
    · exact Except.noConfusion h
    · rename_i c3 reply2 ev3 hg
      split at h
      · exact Except.noConfusion h
      · rename_i c4 reply3 ev4 hl
        simp only [Except.ok.injEq, Prod.mk.injEq] at h
        obtain ⟨rfl, rfl, rfl⟩ := h
        obtain ⟨rfl, htype2, hlen2, hev3⟩ :=
          generate_state_message_spec _ _ _ _ _ hg
        obtain ⟨hps4, hrn4, hlen4, htype4, hev4⟩ :=
          ih _ _ ps _ _ _ hl rfl
        refine ⟨hps4, hrn4, by simp only [List.length_cons]; omega, fun _ => ?_, ?_⟩
        · rcases hrest : rest with - | ⟨q, qs⟩
          · subst hrest
            simp only [SimulatorDriverForTraining.predictionLoop,
              Except.ok.injEq, Prod.mk.injEq] at hl
            obtain ⟨-, rfl, -⟩ := hl
            exact htype2
          · exact htype4 (by simp [hrest])
        · simp [hev3, hev4, rewardNameInEffect, List.flatMap_cons,
            List.append_assoc]

/-! Claim C1: terminal states and reset around advance -/

/-- Reply produced by the START step of the terminal-state fixture. -/
def c1startReply : SimulatorToServer :=
  { message_type := .STATE, sim_id := some 7, register_simulator_name := none,
    state_data := [{ state := [("a", .intVal 1)], reward := 0,
                     terminal := true, action_taken := none }] }

/-- Reply produced by the PREDICTION step of the terminal-state fixture. -/
def c1predReply : SimulatorToServer :=
  { message_type := .STATE, sim_id := some 7, register_simulator_name := none,
    state_data := [{ state := [("a", .intVal 1)], reward := 0,
                     terminal := true, action_taken := some [("a", .intVal 0)] }] }

/-- Simulator events fired by the PREDICTION step of the terminal-state
fixture. -/
def c1predEvs : List SimEvent :=
  [.notifyPredictionEv [("a", .num 0)], .advanceEv (some [("a", .num 0)]),
   .getStateEv]

/-- A READY reply carrying session id 7. -/
def readyReply7 : SimulatorToServer :=
  { message_type := .READY, sim_id := some 7, register_simulator_name := none,
    state_data := [] }

/-- C1 counterexample: against the always-terminal simulator, the START step
reports a terminal state, and the subsequent PREDICTION step fires exactly
notify_prediction_received, advance and get_state, with no reset call
anywhere -- in particular none between notify_prediction and advance even
though the most recent SimState was terminal. -/
theorem advance_terminal_counterexample :
    SimulatorDriverForTraining.next .ACTIVE termConn (some startMsg)
      = .ok (.ACTIVE, termConn, some c1startReply, [.startEv, .getStateEv])
    ∧ c1startReply.state_data.map (fun d => d.terminal) = [true]
    ∧ stepProj (SimulatorDriverForTraining.next .ACTIVE termConn (some predMsg1))
      = some (.ACTIVE, some c1predReply, c1predEvs)
    ∧ SimEvent.resetEv ∉ c1predEvs :=
  ⟨rfl, by decide, by decide, by decide⟩

/-- C1 amended: the adapter's advance never invokes reset; it always
delivers the last action directly to the simulator's advance, even when the
most recent SimState was terminal. No reset is fired while the training
driver processes a PREDICTION message, and in a training session reset is
fired exactly when the server sends a RESET message. -/
theorem advance_no_reset_amended :
    (∀ c : SimulatorConnection,
      (SimulatorConnection.advance c).2
        = [.advanceEv c._simulator.get_last_action])
    ∧ (∀ (c : SimulatorConnection) (m : ServerToSimulator) (ps : BoundSchema)
         (st1 : DriverState) (out : Option SimulatorToServer) (evs : List SimEvent),
      c._prediction_schema = some ps →
      m.message_type = .PREDICTION →
      stepProj (SimulatorDriverForTraining.next .ACTIVE c (some m))
        = some (st1, out, evs) →
      SimEvent.resetEv ∉ evs)
    ∧ (∀ (c : SimulatorConnection) (m : ServerToSimulator)
         (st1 : DriverState) (out : Option SimulatorToServer) (evs : List SimEvent),
      m.message_type = .RESET →
      stepProj (SimulatorDriverForTraining.next .ACTIVE c (some m))
        = some (st1, out, evs) →
      evs = [.resetEv]) := by
  refine ⟨fun c => rfl, ?_, ?_⟩
  · intro c m ps st1 out evs hps hmt h
    simp only [SimulatorDriverForTraining.next,
      SimulatorDriverForTraining._handle_runtime_message, hmt,
      SimulatorDriverForTraining._handle_prediction_message] at h
    by_cases hz : m.prediction_data.length = 0
    · rw [if_pos hz] at h
      simp [stepProj, Except.toOption] at h
    · rw [if_neg hz] at h
      rcases hl : SimulatorDriverForTraining.predictionLoop c m.prediction_data
          SimulatorToServer.empty with e | ⟨c4, reply, ev⟩
      · rw [hl] at h
        simp [stepProj, Except.toOption] at h
      · simp only [hl] at h
        obtain ⟨-, -, -, -, hevs⟩ :=
          predictionLoop_spec m.prediction_data c SimulatorToServer.empty ps
            c4 reply ev hl hps
        rcases hbt : (reply.message_type != SimToServerType.STATE) with - | -
        · rw [hbt] at h
          simp only [Bool.false_eq_true, if_false, stepProj, Except.toOption,
            Option.map, Option.some.injEq] at h
          obtain ⟨rfl, rfl, rfl⟩ := h
          intro hmem
          rw [hevs] at hmem
          simp only [List.mem_flatMap, List.mem_append, List.mem_cons,
            List.not_mem_nil, or_false] at hmem
          obtain ⟨p, -, hmem⟩ := hmem
          rcases hrn : rewardNameInEffect c with - | nm <;>
            simp [hrn] at hmem
        · rw [hbt] at h
          simp [stepProj, Except.toOption] at h
  · intro c m st1 out evs hmt h
    simp only [SimulatorDriverForTraining.next,
      SimulatorDriverForTraining._handle_runtime_message, hmt,
      SimulatorDriverForTraining._handle_reset_message,
      SimulatorConnection.handle_reset_message,
      SimulatorConnection.generate_ready_message] at h
    rcases hsid : c._simulator_id with - | sid
    · simp only [hsid] at h
      simp [stepProj, Except.toOption] at h
    · simp only [hsid] at h
      simp only [stepProj, Except.toOption, Option.map, Option.some.injEq] at h
      rcases h with ⟨-, -, rfl⟩
      rfl

/-- Witness for the amended C1: the adapter advance of the fixture delivers
the (absent) last action without reset, a concrete PREDICTION step fires no
reset, and a concrete RESET step fires exactly one. -/
theorem advance_no_reset_amended_witness :
    (SimulatorConnection.advance termConn).2 = [.advanceEv none]
    ∧ SimEvent.resetEv ∉ c1predEvs
    ∧ ([.resetEv] : List SimEvent) = [.resetEv] := by
  refine ⟨advance_no_reset_amended.1 termConn, ?_, ?_⟩
  · exact advance_no_reset_amended.2.1 termConn predMsg1
      (reconstituteClass demoSchema) .ACTIVE (some c1predReply) c1predEvs
      rfl rfl (by decide)
  · exact advance_no_reset_amended.2.2 termConn resetMsg .ACTIVE
      (some readyReply7) [.resetEv] rfl (by decide)

/-! Claim C9: null outgoing messages in the transport loop -/

/-- C9: after a driver step, a null outgoing message while the driver is not
FINISHED makes both the websocket message handler and the tornado loop body
raise the fatal RuntimeError instead of sending; when the driver is FINISHED
a null outgoing is accepted without error, the recorder sentinel is enqueued
exactly when recording is configured, and the socket is closed. -/
theorem transport_null_output (st : DriverState) (c : SimulatorConnection)
    (msg : Option ServerToSimulator) (recording : Bool)
    (st1 : DriverState) (out : Option SimulatorToServer) (evs : List SimEvent)
    (h : stepProj (SimulatorDriverForTraining.next st c msg)
          = some (st1, out, evs)) :
    (st1 ≠ .FINISHED → out = none →
      handle_message st c msg recording = .fatalNoOutput)
    ∧ (st1 = .FINISHED →
      handle_message st c msg recording = .closedAfterFinish recording)
    ∧ (st1 ≠ .FINISHED → out = none →
      tornado_loop_step st1 out recording = .fatalNoOutput)
    ∧ (st1 = .FINISHED →
      tornado_loop_step st1 out recording = .closedAfterFinish recording) := by
  rcases hn : SimulatorDriverForTraining.next st c msg with e | ⟨st2, c2, out2, evs2⟩
  · rw [hn] at h
    simp [stepProj, Except.toOption] at h
  · rw [hn] at h
    simp only [stepProj, Except.toOption, Option.map, Option.some.injEq] at h
    obtain ⟨rfl, rfl, rfl⟩ := h
    refine ⟨?_, ?_, ?_, ?_⟩
    · intro h1 h2
      simp [handle_message, hn, h2, if_neg h1]
    · intro h1
      simp [handle_message, hn, h1]
    · intro h1 h2
      simp [tornado_loop_step, h1, h2]
    · intro h1
      simp [tornado_loop_step, h1]

/-- Witness for C9: the FINISHED step of the fixture closes with the
sentinel enqueued, and the tornado step at FINISHED with a null outgoing
also closes. -/
theorem transport_null_output_witness :
    handle_message .ACTIVE termConn (some finishedMsg) true
      = .closedAfterFinish true
    ∧ tornado_loop_step .FINISHED none true = .closedAfterFinish true := by
  have h := transport_null_output .ACTIVE termConn (some finishedMsg) true
    .FINISHED none [] (by decide)
  exact ⟨h.2.1 rfl, h.2.2.2 rfl⟩

/-! Claim C2: one aggregated STATE reply per PREDICTION message -/

/-- C2: when the training driver in ACTIVE processes a PREDICTION message
with n greater-equal 1 prediction entries (and a bound prediction schema),
its single step result stays ACTIVE and carries exactly one outgoing reply,
of type STATE, aggregating exactly n state_data entries; the simulator
callbacks fired are, for each prediction entry in order,
notify_prediction_received, then advance, then the state generation
(get_state and the optional reward accessor), each generate_state
accumulating into the one reply. The driver API returns at most one
top-level reply per incoming message by construction of next. -/
theorem training_prediction_single_reply (c : SimulatorConnection)
    (m : ServerToSimulator) (ps : BoundSchema) (st1 : DriverState)
    (out : Option SimulatorToServer) (evs : List SimEvent)
    (hmt : m.message_type = .PREDICTION)
    (hn : 1 ≤ m.prediction_data.length)
    (hps : c._prediction_schema = some ps)
    (h : stepProj (SimulatorDriverForTraining.next .ACTIVE c (some m))
          = some (st1, out, evs)) :
    st1 = .ACTIVE
    ∧ ∃ r, out = some r ∧ r.message_type = .STATE
        ∧ r.state_data.length = m.prediction_data.length
        ∧ evs = m.prediction_data.flatMap (fun p =>
            [.notifyPredictionEv (parseWithSchema ps p.dynamic_prediction),
             .advanceEv (some (parseWithSchema ps p.dynamic_prediction)),
             .getStateEv]
            ++ (rewardNameInEffect c).elim [] (fun nm => [.rewardEv nm])) := by
  simp only [SimulatorDriverForTraining.next,
    SimulatorDriverForTraining._handle_runtime_message, hmt,
    SimulatorDriverForTraining._handle_prediction_message] at h
  rw [if_neg (by omega)] at h
  rcases hl : SimulatorDriverForTraining.predictionLoop c m.prediction_data
      SimulatorToServer.empty with e | ⟨c4, reply, ev⟩
  · rw [hl] at h
    simp [stepProj, Except.toOption] at h
  · simp only [hl] at h
    obtain ⟨-, -, hlen, htype, hevs⟩ :=
      predictionLoop_spec m.prediction_data c SimulatorToServer.empty ps
        c4 reply ev hl hps
    have hst : reply.message_type = .STATE := by
      refine htype ?_
      intro he
      rw [he] at hn
      simp at hn
    rw [hst] at h
    simp only [stepProj, bne_self_eq_false, Bool.false_eq_true, if_false,
      Except.toOption, Option.map, Option.some.injEq] at h
    obtain ⟨rfl, rfl, rfl⟩ := h
    refine ⟨rfl, reply, rfl, hst, ?_, hevs⟩
    simpa [SimulatorToServer.empty] using hlen

/-- Expected aggregated reply of the two-entry witness prediction batch. -/
def c2witReply : SimulatorToServer :=
  { message_type := .STATE, sim_id := some 7, register_simulator_name := none,
    state_data :=
      [{ state := [("a", .intVal 1)], reward := 0, terminal := true,
         action_taken := some [("a", .intVal 0)] },
       { state := [("a", .intVal 1)], reward := 0, terminal := true,
         action_taken := some [("a", .intVal 2)] }] }

/-- Expected simulator events of the two-entry witness prediction batch. -/
def c2witEvs : List SimEvent :=
  [.notifyPredictionEv [("a", .num 0)], .advanceEv (some [("a", .num 0)]),
   .getStateEv,
   .notifyPredictionEv [("a", .num 2)], .advanceEv (some [("a", .num 2)]),
   .getStateEv]

/-- Witness for C2: the two-entry batch against the registered connection
produces one STATE reply with exactly two state_data entries. -/
theorem training_prediction_single_reply_witness :
    DriverState.ACTIVE = DriverState.ACTIVE
    ∧ ∃ r, (some c2witReply : Option SimulatorToServer) = some r
        ∧ r.message_type = .STATE
        ∧ r.state_data.length = predMsg2.prediction_data.length
        ∧ c2witEvs = predMsg2.prediction_data.flatMap (fun p =>
            [.notifyPredictionEv
               (parseWithSchema (reconstituteClass demoSchema) p.dynamic_prediction),
             .advanceEv
               (some (parseWithSchema (reconstituteClass demoSchema) p.dynamic_prediction)),
             .getStateEv]
            ++ (rewardNameInEffect termConn).elim [] (fun nm => [.rewardEv nm])) :=
  training_prediction_single_reply termConn predMsg2 (reconstituteClass demoSchema)
    .ACTIVE (some c2witReply) c2witEvs rfl (by decide) rfl (by decide)

/-! Claim C8: the REGISTERING state ignores the message type -/

/-- C8: in REGISTERING the training driver processes every non-empty message
that carries acknowledge_register_data as a registration acknowledgement,
moving to ACTIVE and replying READY with the acknowledged session id; a
non-empty message without that sub-payload raises MalformedMessageError (not
UnexpectedMessageError); an empty incoming raises EmptyMessageError; and the
step result never depends on the declared message_type. -/
theorem registration_ack_any_type (c : SimulatorConnection)
    (m : ServerToSimulator) :
    (∀ ack, m.acknowledge_register_data = some ack →
      SimulatorDriverForTraining.next .REGISTERING c (some m)
        = .ok (.ACTIVE, c.handle_register_acknowledgement ack,
            some { message_type := .READY, sim_id := some ack.sim_id,
                   register_simulator_name := none, state_data := [] }, []))
    ∧ (m.acknowledge_register_data = none →
      SimulatorDriverForTraining.next .REGISTERING c (some m)
        = .error (.malformedMessage "acknowledge_register_data"))
    ∧ SimulatorDriverForTraining.next .REGISTERING c none
        = .error (.emptyMessage "ServerToSimulator with AcknowledgeRegisterData")
    ∧ (∀ mt : ServerMsgType,
      SimulatorDriverForTraining.next .REGISTERING c
          (some { m with message_type := mt })
        = SimulatorDriverForTraining.next .REGISTERING c (some m)) := by
  refine ⟨?_, ?_, rfl, ?_⟩
  · intro ack hack
    simp [SimulatorDriverForTraining.next,
      SimulatorDriverForTraining._handle_registration_acknowledgement, hack,
      SimulatorConnection.handle_register_acknowledgement,
      SimulatorConnection.generate_ready_message, SimulatorToServer.empty]
  · intro hnone
    simp [SimulatorDriverForTraining.next,
      SimulatorDriverForTraining._handle_registration_acknowledgement, hnone]
  · intro mt
    simp [SimulatorDriverForTraining.next,
      SimulatorDriverForTraining._handle_registration_acknowledgement]

/-- Witness for C8: a concrete acknowledgement with a PREDICTION-typed
envelope still registers, and a START message in REGISTERING is malformed
rather than unexpected. -/
theorem registration_ack_any_type_witness :
    SimulatorDriverForTraining.next .REGISTERING termConn
        (some { ackMsg with message_type := .PREDICTION })
      = .ok (.ACTIVE, termConn.handle_register_acknowledgement demoAck,
          some { message_type := .READY, sim_id := some 7,
                 register_simulator_name := none, state_data := [] }, [])
    ∧ SimulatorDriverForTraining.next .REGISTERING termConn (some startMsg)
      = .error (.malformedMessage "acknowledge_register_data") :=
  ⟨(registration_ack_any_type termConn
      { ackMsg with message_type := .PREDICTION }).1 demoAck rfl,
   (registration_ack_any_type termConn startMsg).2.1 rfl⟩

/-! Claim C7: SEND lines in the recording file -/

/-- Body line written for a received message: its one-line serialization or
the literal None. -/
def recvBody (m : Option ServerToSimulator) : String :=
  (m.map serializeServerMsg).getD "None"

/-- Body line written for a sent message: its one-line serialization or the
literal None. -/
def sendBody (m : Option SimulatorToServer) : String :=
  (m.map serializeSimMsg).getD "None"

/-- Length of a serialized incoming message. -/
theorem serializeServerMsg_length (m : ServerToSimulator) :
    (serializeServerMsg m).length
      = 14 + (serverMsgTypeName m.message_type).length := by
  have h14 : ("message_type: " : String).length = 14 := by decide
  rw [serializeServerMsg, String.length_append, h14]

/-- Length of a serialized outgoing message. -/
theorem serializeSimMsg_length (m : SimulatorToServer) :
    (serializeSimMsg m).length
      = 14 + (simMsgTypeName m.message_type).length := by
  have h14 : ("message_type: " : String).length = 14 := by decide
  rw [serializeSimMsg, String.length_append, h14]

/-- A received-message body line is never the SEND token nor empty. -/
theorem recvBody_spec (m : Option ServerToSimulator) :
    recvBody m ≠ "SEND" ∧ recvBody m ≠ "" := by
  cases m with
  | none => exact ⟨by decide, by decide⟩
  | some m =>
    constructor <;> intro h <;>
      have hl := serializeServerMsg_length m <;>
      rw [show serializeServerMsg m = recvBody (some m) from rfl, h] at hl
    · have h4 : ("SEND" : String).length = 4 := by decide
      rw [h4] at hl
      omega
    · have h0 : ("" : String).length = 0 := by decide
      rw [h0] at hl
      omega

/-- A sent-message body line is never the SEND token nor empty. -/
theorem sendBody_spec (m : Option SimulatorToServer) :
    sendBody m ≠ "SEND" ∧ sendBody m ≠ "" := by
  cases m with
  | none => exact ⟨by decide, by decide⟩
  | some m =>
    constructor <;> intro h <;>
      have hl := serializeSimMsg_length m <;>
      rw [show serializeSimMsg m = sendBody (some m) from rfl, h] at hl
    · have h4 : ("SEND" : String).length = 4 := by decide
      rw [h4] at hl
      omega
    · have h0 : ("" : String).length = 0 := by decide
      rw [h0] at hl
      omega

/-- The writer consumes one full recorded exchange at a time when the body
lines are non-empty. -/
theorem record_to_file_cons_chunk (b1 b2 : String) (q : List QueueItem)
    (h1 : b1 ≠ "") (h2 : b2 ≠ "") :
    record_to_file (some "RECV" :: some b1 :: some "SEND" :: some b2 :: q)
      = "RECV" :: b1 :: "SEND" :: b2 :: record_to_file q := by
  simp only [record_to_file]
  rw [if_neg (by decide), if_neg h1, if_neg (by decide), if_neg h2]

/-- The recording file of a websocket session is the concatenation of the
four-line chunks RECV, received body, SEND, sent body, one per exchange. -/
theorem record_to_file_sessionQueue
    (exchanges : List (Option ServerToSimulator × Option SimulatorToServer)) :
    record_to_file (sessionQueue exchanges)
      = exchanges.flatMap
          (fun e => ["RECV", recvBody e.1, "SEND", sendBody e.2]) := by
  induction exchanges with
  | nil => rfl
  | cons e rest ih =>
    rw [show sessionQueue (e :: rest)
          = some "RECV" :: some (recvBody e.1) :: some "SEND"
            :: some (sendBody e.2) :: sessionQueue rest from rfl,
        record_to_file_cons_chunk _ _ _ (recvBody_spec e.1).2 (sendBody_spec e.2).2,
        ih, List.flatMap_cons]
    rfl

/-- The 4-periodic chunk structure places every SEND line exactly two lines
after a RECV line, provided no body line equals the SEND token. -/
theorem send_two_after_recv (chunks : List (String × String))
    (hb : ∀ bc ∈ chunks, bc.1 ≠ "SEND" ∧ bc.2 ≠ "SEND") :
    ∀ i, (chunks.flatMap fun bc => ["RECV", bc.1, "SEND", bc.2]).get? i
           = some "SEND" →
      2 ≤ i ∧ (chunks.flatMap fun bc => ["RECV", bc.1, "SEND", bc.2]).get? (i - 2)
           = some "RECV" := by
  induction chunks with
  | nil =>
    intro i h
    simp at h
  | cons bc rest ih =>
    intro i h
    have hbc := hb bc (List.mem_cons_self bc rest)
    have hbr : ∀ x ∈ rest, x.1 ≠ "SEND" ∧ x.2 ≠ "SEND" := fun x hx =>
      hb x (List.mem_cons_of_mem bc hx)
    rw [List.flatMap_cons] at h ⊢
    rcases i with - | - | - | - | n
    · exact absurd (Option.some.inj h) (by decide)
    · exact absurd (Option.some.inj h) hbc.1
    · exact ⟨le_refl 2, rfl⟩
    · exact absurd (Option.some.inj h) hbc.2
    · have h1 : (rest.flatMap fun bc => ["RECV", bc.1, "SEND", bc.2]).get? n
          = some "SEND" := h
      obtain ⟨h2, hr⟩ := ih hbr n h1
      refine ⟨by omega, ?_⟩
      have hidx : n + 1 + 1 + 1 + 1 - 2 = (n - 2) + 4 := by omega
      rw [hidx]
      exact hr

/-- Register reply used by the recorder fixture. -/
def regReply : SimulatorToServer :=
  { message_type := .REGISTER, sim_id := none,
    register_simulator_name := some "cartpole", state_data := [] }

/-- A one-exchange recorder fixture: the initial null receive and the
REGISTER send. -/
def c7exchanges : List (Option ServerToSimulator × Option SimulatorToServer) :=
  [((none : Option ServerToSimulator), some regReply)]

/-- C7 counterexample: in the one-exchange recording the SEND token is line
index 2, and the line immediately preceding it is the body line None, not a
RECV token line and not the first line; the claim as stated is false of this
file. -/
theorem recorder_send_counterexample :
    (record_to_file (sessionQueue c7exchanges)).get? 2 = some "SEND"
    ∧ (record_to_file (sessionQueue c7exchanges)).get? 1 = some "None"
    ∧ ¬ (∀ i, (record_to_file (sessionQueue c7exchanges)).get? i = some "SEND" →
          i ≤ 1 ∨ (record_to_file (sessionQueue c7exchanges)).get? (i - 1)
            = some "RECV") := by
  refine ⟨by decide, by decide, ?_⟩
  intro hall
  rcases hall 2 (by decide) with h | h
  · exact absurd h (by decide)
  · exact absurd h (by decide)

/-- Chunking of the body lines through a map, used to phrase the recording
file as a flatMap over string pairs. -/
theorem flatMap_body_map
    (exchanges : List (Option ServerToSimulator × Option SimulatorToServer)) :
    exchanges.flatMap (fun e => ["RECV", recvBody e.1, "SEND", sendBody e.2])
      = (exchanges.map fun e => (recvBody e.1, sendBody e.2)).flatMap
          (fun bc => ["RECV", bc.1, "SEND", bc.2]) := by
  induction exchanges with
  | nil => rfl
  | cons e rest ihm => simp [List.flatMap_cons, ihm]

/-- C7 amended: in every recording file the recorder produces, every line
consisting of the SEND token sits at least two lines into the file and the
line two positions before it is a RECV token line -- every SEND record is
immediately preceded by a RECV record (each record being a token line
followed by its body line). -/
theorem recorder_send_amended
    (exchanges : List (Option ServerToSimulator × Option SimulatorToServer))
    (i : Nat)
    (h : (record_to_file (sessionQueue exchanges)).get? i = some "SEND") :
    2 ≤ i ∧ (record_to_file (sessionQueue exchanges)).get? (i - 2)
      = some "RECV" := by
  rw [record_to_file_sessionQueue] at h ⊢
  rw [flatMap_body_map] at h ⊢
  refine send_two_after_recv _ ?_ i h
  intro bc hbc
  simp only [List.mem_map] at hbc
  obtain ⟨e, -, rfl⟩ := hbc
  exact ⟨(recvBody_spec e.1).1, (sendBody_spec e.2).1⟩

/-- Witness for the amended C7 at the one-exchange fixture and line 2. -/
theorem recorder_send_amended_witness :
    2 ≤ 2 ∧ (record_to_file (sessionQueue c7exchanges)).get? 0
      = some "RECV" := by
  have h := recorder_send_amended c7exchanges 2 (by decide)
  exact ⟨h.1, h.2⟩

end Bonsai
